import Mathlib

/-!
Shallow embedding of the c-socket-wrapper TCP server library
(src/socket.h, src/socket.c, src/main.c).

OS calls (malloc, socket, bind, listen, accept, recv, close) are modelled by
explicit oracle arguments: a `Bool` for malloc success, an `Int` for the
result of an OS call that returns a file descriptor or a status, a list of
pending peer bytes plus an error flag for `recv`.  Heap bookkeeping (the
`malloc`/`free` pairs the C code performs) is tracked by a tally of
allocations and frees, so that leak-freedom on error paths is expressible.
-/

set_option autoImplicit false

namespace CSocket

/-- The `AF_INET` address-family constant (IPv4). -/
def AF_INET : Nat := 2

/-- Global buffer bound from socket.h line 6: `int SOCKET_BUFFER_SIZE = 1024`. -/
def SOCKET_BUFFER_SIZE : Int := 1024

/-- Model of `struct sockaddr_in` as filled by the code: address family,
16-bit port in network byte order, and the 32-bit IPv4 address in network
byte order (big-endian packed octets, so the first octet on the wire is the
most significant). -/
structure SockAddrIn where
  sin_family : Nat
  sin_port : Nat
  sin_addr : Nat
  deriving Repr, DecidableEq

/-- Model of the `Socket` struct of socket.h: file descriptor, address
structure, host-order port, and textual IP. -/
structure Socket where
  fd : Int
  address : SockAddrIn
  port : Int
  ip : String
  deriving Repr, DecidableEq

/-- Model of the `ServerSocket` struct of socket.h: the embedded `Socket`
plus the backlog. -/
structure ServerSocket where
  server_socket : Socket
  backlog : Int
  deriving Repr, DecidableEq

/-- Tally of heap events inside one call: how many `malloc`s succeeded and
how many `free`s were executed.  A call leaks exactly when it returns no
ownership to the caller yet made more allocations than frees. -/
structure HeapTally where
  allocs : Nat
  frees : Nat
  deriving Repr, DecidableEq

/-- Byte swap of a 16-bit value: the operation performed by `htons`/`ntohs`
on a little-endian host.  Inputs are first reduced mod 2^16 as the C
`uint16_t` argument conversion does. -/
def hton16 (n : Nat) : Nat :=
  (n % 65536 % 256) * 256 + n % 65536 / 256

/-- `ntohs`: network-to-host conversion of a 16-bit value (same byte swap). -/
def ntohs (n : Nat) : Nat := hton16 n

/-- `htons` applied to a C `int` port: the int is converted to `uint16_t`
(reduction mod 2^16) and then byte-swapped. -/
def htons (p : Int) : Nat := hton16 (p % 65536).toNat

/-- Pack four IPv4 octets into the 32-bit network-byte-order value
(first octet most significant, as laid out in memory). -/
def packIPv4 (a b c d : Nat) : Nat :=
  a * 16777216 + b * 65536 + c * 256 + d

/-- Character loop of libc `inet_pton` for `AF_INET` (the call on
socket.c line 72): `cur` is the octet value being accumulated, `sawDigit`
records whether the current octet has at least one digit, `acc` holds the
completed octets.  Rejects a digit after an accumulated `0` (no leading
zeros), an octet above 255, a dot not preceded by a digit, a fifth octet,
and any non-digit non-dot character; succeeds only with exactly four
octets. -/
def pton4Go : List Char → Nat → Bool → List Nat → Option (List Nat)
  | [], cur, sawDigit, acc =>
    if sawDigit then
      if acc.length = 3 then some (acc ++ [cur]) else none
    else none
  | ch :: rest, cur, sawDigit, acc =>
    if ch.isDigit then
      if sawDigit ∧ cur = 0 then none
      else if cur * 10 + (ch.toNat - 48) > 255 then none
      else pton4Go rest (cur * 10 + (ch.toNat - 48)) true acc
    else if ch = '.' ∧ sawDigit then
      if acc.length = 3 then none
      else pton4Go rest 0 false (acc ++ [cur])
    else none

/-- `inet_pton(AF_INET, s, dst)`: `some` of the packed network-byte-order
address when `s` is a valid dotted-decimal IPv4 string, `none` otherwise
(in which case the C call writes nothing to `dst`). -/
def inet_pton4 (s : String) : Option Nat :=
  (pton4Go s.data 0 false []).map (fun l => l.foldl (fun acc o => acc * 256 + o) 0)

/-- `inet_ntop(AF_INET, addr, buf, 16)` (socket.c line 320): renders the
four octets of the network-byte-order address in dotted-decimal text,
most significant (first in memory) octet first. -/
def inet_ntop4 (n : Nat) : String :=
  toString (n / 16777216 % 256) ++ "." ++ toString (n / 65536 % 256) ++ "." ++
    toString (n / 256 % 256) ++ "." ++ toString (n % 256)

/-- `create_server_socket` (socket.c lines 9-80).  `mallocOk` models the
`malloc` result, `socketFd` the result of the `socket` call.  On malloc
failure: return NULL.  On socket failure: free the structure, return NULL.
Otherwise the structure is filled: fd, port, backlog, the IP text
(`strcpy`), the address zeroed by `memset` and then populated with
`AF_INET`, `htons(port)`, and the `inet_pton` conversion of the IP string —
which leaves the zeroed (wildcard) address untouched when the string is
invalid, since the return value of `inet_pton` is not checked. -/
def create_server_socket (ip : String) (port backlog : Int)
    (mallocOk : Bool) (socketFd : Int) (heap : HeapTally) :
    Option ServerSocket × HeapTally :=
  if !mallocOk then (none, heap)
  else
    let heap1 : HeapTally := { allocs := heap.allocs + 1, frees := heap.frees }
    if socketFd < 0 then
      (none, { allocs := heap1.allocs, frees := heap1.frees + 1 })
    else
      (some
        { server_socket :=
            { fd := socketFd
              port := port
              ip := ip
              address :=
                { sin_family := AF_INET
                  sin_port := htons port
                  sin_addr := (inet_pton4 ip).getD 0 } }
          backlog := backlog }, heap1)

/-- `server_bind` (socket.c lines 82-158): calls OS `bind` (result modelled
by `bindResult`), returns -1 on failure and 0 on success; the function
never writes to the `ServerSocket`, so the structure is returned
unchanged. -/
def server_bind (server : ServerSocket) (bindResult : Int) : Int × ServerSocket :=
  if bindResult < 0 then (-1, server) else (0, server)

/-- `server_listen` (socket.c lines 160-220): calls OS `listen` (result
modelled by `listenResult`), returns -1 on failure and 0 on success; the
`ServerSocket` is never written, hence returned unchanged. -/
def server_listen (server : ServerSocket) (listenResult : Int) : Int × ServerSocket :=
  if listenResult < 0 then (-1, server) else (0, server)

/-- `server_accept` (socket.c lines 222-327).  `mallocOk` models the
`malloc` of the client `Socket`; `acceptFd` the OS `accept` result, and
`peer` the peer `sockaddr_in` the kernel fills in on success.  On malloc
failure: NULL.  On accept failure (`acceptFd < 0`): the client structure is
freed and NULL returned.  On success the struct holds the new fd, the peer
address, `ntohs` of the network-order peer port, and the `inet_ntop`
rendering of the peer address.  The listener is never written, hence passed
through unchanged. -/
def server_accept (server : ServerSocket) (mallocOk : Bool) (acceptFd : Int)
    (peer : SockAddrIn) (heap : HeapTally) :
    Option Socket × ServerSocket × HeapTally :=
  if !mallocOk then (none, server, heap)
  else
    let heap1 : HeapTally := { allocs := heap.allocs + 1, frees := heap.frees }
    if acceptFd < 0 then
      (none, server, { allocs := heap1.allocs, frees := heap1.frees + 1 })
    else
      (some
        { fd := acceptFd
          address := peer
          port := (ntohs peer.sin_port : Int)
          ip := inet_ntop4 peer.sin_addr }, server, heap1)

/-- `socket_receive` (socket.c lines 423-519), which calls
`recv(fd, buffer, buffer_size - 1, 0)`.  The kernel side of `recv` is
modelled deterministically: on error (`recvError`) it returns -1 and the
buffer is untouched; otherwise it delivers
`min (pending.length) (buffer_size - 1)` bytes — the front of the pending
peer data, truncated to the requested capacity.  The code then writes the
null terminator at index `bytes_received` and returns the count.  The
returned list is the buffer contents after the call: the delivered bytes,
the null byte, then the old contents beyond the write. -/
def socket_receive (buffer : List Nat) (buffer_size : Int)
    (pending : List Nat) (recvError : Bool) : Int × List Nat :=
  if recvError then (-1, buffer)
  else
    let bytes := pending.take (buffer_size - 1).toNat
    ((bytes.length : Int), bytes ++ 0 :: buffer.drop (bytes.length + 1))

/-- `socket_close` (socket.c lines 521-574): if the fd is non-negative the
OS `close` is invoked (result modelled by `closeResult`); on OS failure
return -1 with the fd left as is, on success set the fd to -1 and return 0.
If the fd is already negative nothing happens and 0 is returned.  The
`Bool` component records whether the OS `close` call was made. -/
def socket_close (sock : Socket) (closeResult : Int) : Int × Socket × Bool :=
  if 0 ≤ sock.fd then
    if closeResult < 0 then (-1, sock, true)
    else (0, { sock with fd := -1 }, true)
  else (0, sock, false)

/-- Closing one connection among many: the world is a list of independent
`Socket` structures (distinct heap objects in the C program); closing the
one at index `i` rewrites only that entry. -/
def closeWorldAt (world : List Socket) (i : Nat) (closeResult : Int) : List Socket :=
  match world.get? i with
  | none => world
  | some s => world.set i (socket_close s closeResult).2.1

/-- Observable outcome of one iteration of the accept loop in main.c for an
accepted client: whether the greeting was sent, whether the acknowledgement
was sent, and whether the client socket was closed. -/
structure ExchangeTrace where
  greetingSent : Bool
  ackSent : Bool
  connectionClosed : Bool
  deriving Repr, DecidableEq

/-- The per-client body of the accept loop (main.c lines 44-59) as a
function of the `socket_receive` return value: the greeting is sent first,
then `if (!bytes_received)` abandons the exchange (close, continue), and
otherwise the acknowledgement `"Message received\n"` is sent before the
close.  Note the test is `bytes_received == 0`, not `<= 0`. -/
def clientExchange (bytes_received : Int) : ExchangeTrace :=
  if bytes_received = 0 then
    { greetingSent := true, ackSent := false, connectionClosed := true }
  else
    { greetingSent := true, ackSent := true, connectionClosed := true }

/-- Length of the C string held in a byte list: the index of the first null
byte (or the whole length when there is none). -/
def cStrLen : List Nat → Nat
  | [] => 0
  | b :: rest => if b = 0 then 0 else cStrLen rest + 1

/-! Helper lemmas shared by several proofs. -/

theorem get?_append_cons_self (l t : List Nat) (a : Nat) :
    (l ++ a :: t).get? l.length = some a := by
  induction l with
  | nil => rfl
  | cons x xs ih => simpa using ih

theorem cStrLen_append_zero (l t : List Nat) : cStrLen (l ++ 0 :: t) ≤ l.length := by
  induction l with
  | nil => simp [cStrLen]
  | cons x xs ih =>
    by_cases hx : x = 0
    · simp [cStrLen, hx]
    · simp only [List.cons_append, cStrLen, if_neg hx, List.length_cons, List.append_eq]
      omega

theorem get?_set_ne {α : Type} (l : List α) (i j : Nat) (a : α) (h : j ≠ i) :
    (l.set i a).get? j = l.get? j := by
  induction l generalizing i j with
  | nil => simp
  | cons x xs ih =>
    cases i with
    | zero => cases j with
      | zero => exact absurd rfl h
      | succ j => simp
    | succ i => cases j with
      | zero => simp
      | succ j => simpa using ih i j (by omega)

theorem hton16_hton16 (p : Nat) (hp : p < 65536) : hton16 (hton16 p) = p := by
  unfold hton16
  rw [Nat.mod_eq_of_lt hp,
    Nat.mod_eq_of_lt (show p % 256 * 256 + p / 256 < 65536 by omega)]
  omega

theorem create_server_socket_success (ip : String) (port backlog socketFd : Int)
    (heap : HeapTally) (hfd : 0 ≤ socketFd) :
    create_server_socket ip port backlog true socketFd heap =
      (some
        { server_socket :=
            { fd := socketFd
              port := port
              ip := ip
              address :=
                { sin_family := AF_INET
                  sin_port := htons port
                  sin_addr := (inet_pton4 ip).getD 0 } }
          backlog := backlog },
       { allocs := heap.allocs + 1, frees := heap.frees }) := by
  simp [create_server_socket, not_lt.mpr hfd]

theorem create_server_socket_socket_fail (ip : String) (port backlog socketFd : Int)
    (heap : HeapTally) (hfd : socketFd < 0) :
    create_server_socket ip port backlog true socketFd heap =
      (none, { allocs := heap.allocs + 1, frees := heap.frees + 1 }) := by
  simp [create_server_socket, hfd]

theorem server_accept_success (server : ServerSocket) (acceptFd : Int)
    (peer : SockAddrIn) (heap : HeapTally) (hfd : 0 ≤ acceptFd) :
    server_accept server true acceptFd peer heap =
      (some
        { fd := acceptFd
          address := peer
          port := (ntohs peer.sin_port : Int)
          ip := inet_ntop4 peer.sin_addr }, server,
       { allocs := heap.allocs + 1, frees := heap.frees }) := by
  simp [server_accept, not_lt.mpr hfd]

theorem server_accept_fail (server : ServerSocket) (acceptFd : Int)
    (peer : SockAddrIn) (heap : HeapTally) (hfd : acceptFd < 0) :
    server_accept server true acceptFd peer heap =
      (none, server, { allocs := heap.allocs + 1, frees := heap.frees + 1 }) := by
  simp [server_accept, hfd]

/-! Theorems settling the claims. -/

/-- C1, counterexample.  The claim says a failed (error) receive never leads
to the acknowledgement being sent.  On the code this is false: `recv` fails,
`socket_receive` returns -1, the loop's test `if (!bytes_received)` is false
for -1, and the acknowledgement is sent anyway. -/
theorem main_ack_after_failed_receive :
    (socket_receive (List.replicate 1024 0) (SOCKET_BUFFER_SIZE - 1) [] true).1 = -1 ∧
    (clientExchange
      (socket_receive (List.replicate 1024 0) (SOCKET_BUFFER_SIZE - 1) [] true).1).ackSent
      = true := by
  exact ⟨rfl, rfl⟩

/-- C1, amended.  In the fixed wire exchange the greeting is always sent
after accept, and the acknowledgement is sent if and only if the single
receive returns a nonzero value: a zero-byte receive abandons the exchange
without the acknowledgement, but a failed receive (returning -1) also leads
to the acknowledgement being sent, because the loop only tests the count
against zero. -/
theorem clientExchange_ack_iff_nonzero (buffer pending : List Nat) (recvError : Bool) :
    (clientExchange
      (socket_receive buffer (SOCKET_BUFFER_SIZE - 1) pending recvError).1).greetingSent
      = true ∧
    ((clientExchange
      (socket_receive buffer (SOCKET_BUFFER_SIZE - 1) pending recvError).1).ackSent = true
      ↔ (socket_receive buffer (SOCKET_BUFFER_SIZE - 1) pending recvError).1 ≠ 0) := by
  by_cases h : (socket_receive buffer (SOCKET_BUFFER_SIZE - 1) pending recvError).1 = 0 <;>
    simp [clientExchange, h]

/-- C2, counterexample.  The claim says that when more than `max_bytes`
bytes are available a single receive returns exactly `max_bytes` bytes.
With `max_bytes = 3` and five bytes available the call returns 2, because
`socket_receive` passes `buffer_size - 1` to `recv`. -/
theorem socket_receive_not_full_capacity :
    (socket_receive [0, 0, 0, 0, 0, 0, 0, 0] 3 [1, 2, 3, 4, 5] false).1 = 2 ∧
    ¬ (socket_receive [0, 0, 0, 0, 0, 0, 0, 0] 3 [1, 2, 3, 4, 5] false).1 = 3 := by
  decide

/-- C2, amended.  A non-failing `socket_receive` with capacity argument
`max_bytes ≥ 1` returns a count `n` with `0 ≤ n ≤ max_bytes - 1` (one byte
of the capacity is reserved for the null terminator), and when at least
`max_bytes - 1` bytes are available it returns exactly `max_bytes - 1`. -/
theorem socket_receive_count_bounds (buffer pending : List Nat) (buffer_size : Int)
    (h : 1 ≤ buffer_size) :
    0 ≤ (socket_receive buffer buffer_size pending false).1 ∧
    (socket_receive buffer buffer_size pending false).1 ≤ buffer_size - 1 ∧
    (buffer_size - 1 ≤ (pending.length : Int) →
      (socket_receive buffer buffer_size pending false).1 = buffer_size - 1) := by
  have hlen : (socket_receive buffer buffer_size pending false).1
      = ((min (buffer_size - 1).toNat pending.length : Nat) : Int) := by
    simp [socket_receive, List.length_take]
  refine ⟨?_, ?_, fun hav => ?_⟩ <;> rw [hlen] <;> omega

/-- C2 witness: capacity 3, five bytes pending, count is exactly 2 = 3 - 1. -/
theorem socket_receive_count_bounds_witness :
    (1 : Int) ≤ 3 ∧
    (0 ≤ (socket_receive [0, 0, 0, 0] 3 [1, 2, 3, 4, 5] false).1 ∧
      (socket_receive [0, 0, 0, 0] 3 [1, 2, 3, 4, 5] false).1 ≤ 3 - 1 ∧
      ((3 : Int) - 1 ≤ ((([1, 2, 3, 4, 5] : List Nat).length : Nat) : Int) →
        (socket_receive [0, 0, 0, 0] 3 [1, 2, 3, 4, 5] false).1 = 3 - 1)) :=
  ⟨by decide, socket_receive_count_bounds [0, 0, 0, 0] [1, 2, 3, 4, 5] 3 (by decide)⟩

/-- C3, confirmed.  For every string the IPv4 parser rejects,
`create_server_socket` (with the OS calls succeeding) still returns a
server, and its binary address is the all-zero wildcard left by `memset`,
because the failing `inet_pton` writes nothing and its result is not
checked. -/
theorem create_invalid_ip_wildcard (ip : String) (hip : inet_pton4 ip = none)
    (port backlog socketFd : Int) (hfd : 0 ≤ socketFd) (heap : HeapTally) :
    ∃ s, (create_server_socket ip port backlog true socketFd heap).1 = some s ∧
      s.server_socket.address.sin_addr = 0 := by
  refine ⟨⟨⟨socketFd, ⟨AF_INET, htons port, (inet_pton4 ip).getD 0⟩, port, ip⟩, backlog⟩,
    ?_, ?_⟩
  · rw [create_server_socket_success ip port backlog socketFd heap hfd]
  · simp [hip]

/-- C3 witness: `"localhost"` is not dotted-decimal, yet creation succeeds
and the stored binary address is zero. -/
theorem create_invalid_ip_wildcard_witness :
    inet_pton4 "localhost" = none ∧ (0 : Int) ≤ 3 ∧
    ∃ s, (create_server_socket "localhost" 8080 5 true 3 ⟨0, 0⟩).1 = some s ∧
      s.server_socket.address.sin_addr = 0 :=
  ⟨by decide, by decide,
    create_invalid_ip_wildcard "localhost" (by decide) 8080 5 3 (by decide) ⟨0, 0⟩⟩

/-- C4, confirmed.  `create_server_socket` returns no server both when the
structure allocation fails and when the OS `socket` call fails, and in
either case every allocation made inside the call has been freed (the
structure is freed on the socket-failure path), so no partial server is
ever returned and nothing leaks. -/
theorem create_failure_no_partial (ip : String) (port backlog socketFd : Int)
    (mallocOk : Bool) (heap : HeapTally)
    (h : mallocOk = false ∨ socketFd < 0) :
    (create_server_socket ip port backlog mallocOk socketFd heap).1 = none ∧
    (create_server_socket ip port backlog mallocOk socketFd heap).2.allocs + heap.frees =
      (create_server_socket ip port backlog mallocOk socketFd heap).2.frees + heap.allocs := by
  rcases h with h | h
  · subst h
    refine ⟨rfl, ?_⟩
    show heap.allocs + heap.frees = heap.frees + heap.allocs
    omega
  · cases mallocOk with
    | false =>
      refine ⟨rfl, ?_⟩
      show heap.allocs + heap.frees = heap.frees + heap.allocs
      omega
    | true =>
      rw [create_server_socket_socket_fail ip port backlog socketFd heap h]
      refine ⟨rfl, ?_⟩
      show heap.allocs + 1 + heap.frees = heap.frees + 1 + heap.allocs
      omega

/-- C4 witness: allocation succeeds but the OS socket call returns -1. -/
theorem create_failure_no_partial_witness :
    (true = false ∨ (-1 : Int) < 0) ∧
    ((create_server_socket "127.0.0.1" 8080 5 true (-1) ⟨2, 1⟩).1 = none ∧
      (create_server_socket "127.0.0.1" 8080 5 true (-1) ⟨2, 1⟩).2.allocs + 1 =
        (create_server_socket "127.0.0.1" 8080 5 true (-1) ⟨2, 1⟩).2.frees + 2) :=
  ⟨Or.inr (by decide),
    create_failure_no_partial "127.0.0.1" 8080 5 (-1) true ⟨2, 1⟩ (Or.inr (by decide))⟩

/-- C5, confirmed.  When the OS-level `accept` fails, `server_accept`
returns no connection, the memory just allocated for the prospective
connection is freed (allocations and frees balance), and the listener
structure is passed through unchanged, so it remains usable for later
accept attempts. -/
theorem accept_failure_listener_intact (server : ServerSocket) (acceptFd : Int)
    (peer : SockAddrIn) (heap : HeapTally) (h : acceptFd < 0) :
    (server_accept server true acceptFd peer heap).1 = none ∧
    (server_accept server true acceptFd peer heap).2.1 = server ∧
    (server_accept server true acceptFd peer heap).2.2.allocs + heap.frees =
      (server_accept server true acceptFd peer heap).2.2.frees + heap.allocs := by
  rw [server_accept_fail server acceptFd peer heap h]
  refine ⟨rfl, rfl, ?_⟩
  show heap.allocs + 1 + heap.frees = heap.frees + 1 + heap.allocs
  omega

/-- C5 witness: a concrete listener survives a failed accept untouched. -/
theorem accept_failure_listener_intact_witness :
    ((-1 : Int) < 0) ∧
    ((server_accept ⟨⟨3, ⟨2, 36895, 0⟩, 8080, "0.0.0.0"⟩, 5⟩ true (-1) ⟨2, 0, 0⟩ ⟨0, 0⟩).1
        = none ∧
      (server_accept ⟨⟨3, ⟨2, 36895, 0⟩, 8080, "0.0.0.0"⟩, 5⟩ true (-1) ⟨2, 0, 0⟩ ⟨0, 0⟩).2.1
        = ⟨⟨3, ⟨2, 36895, 0⟩, 8080, "0.0.0.0"⟩, 5⟩ ∧
      (server_accept ⟨⟨3, ⟨2, 36895, 0⟩, 8080, "0.0.0.0"⟩, 5⟩ true (-1) ⟨2, 0, 0⟩
          ⟨0, 0⟩).2.2.allocs + 0 =
        (server_accept ⟨⟨3, ⟨2, 36895, 0⟩, 8080, "0.0.0.0"⟩, 5⟩ true (-1) ⟨2, 0, 0⟩
          ⟨0, 0⟩).2.2.frees + 0) :=
  ⟨by decide,
    accept_failure_listener_intact ⟨⟨3, ⟨2, 36895, 0⟩, 8080, "0.0.0.0"⟩, 5⟩ (-1) ⟨2, 0, 0⟩
      ⟨0, 0⟩ (by decide)⟩

/-- C6, confirmed.  `socket_close` on an already-closed socket (negative
fd) makes no OS close call, returns 0 (success), and leaves the structure
unchanged; and closing the connection at one index of a collection of
connections leaves every other connection exactly as it was. -/
theorem socket_close_idempotent (sock : Socket) (closeResult : Int) (h : sock.fd < 0)
    (world : List Socket) (i j : Nat) (closeResult2 : Int) (hij : j ≠ i) :
    socket_close sock closeResult = (0, sock, false) ∧
    (closeWorldAt world i closeResult2).get? j = world.get? j := by
  constructor
  · simp [socket_close, not_le.mpr h]
  · unfold closeWorldAt
    cases hw : world.get? i with
    | none => rfl
    | some s => exact get?_set_ne world i j _ hij

/-- C6 witness: a closed socket with fd -1 and a two-element world. -/
theorem socket_close_idempotent_witness :
    ((⟨-1, ⟨2, 0, 0⟩, 80, "203.0.113.7"⟩ : Socket).fd < 0) ∧ (1 ≠ 0) ∧
    (socket_close ⟨-1, ⟨2, 0, 0⟩, 80, "203.0.113.7"⟩ 0
        = (0, ⟨-1, ⟨2, 0, 0⟩, 80, "203.0.113.7"⟩, false) ∧
      (closeWorldAt [⟨-1, ⟨2, 0, 0⟩, 80, "203.0.113.7"⟩, ⟨4, ⟨2, 0, 0⟩, 81, "198.51.100.2"⟩]
          0 0).get? 1
        = [⟨-1, ⟨2, 0, 0⟩, 80, "203.0.113.7"⟩, ⟨4, ⟨2, 0, 0⟩, 81, "198.51.100.2"⟩].get? 1) :=
  ⟨by decide, by decide,
    socket_close_idempotent ⟨-1, ⟨2, 0, 0⟩, 80, "203.0.113.7"⟩ 0 (by decide)
      [⟨-1, ⟨2, 0, 0⟩, 80, "203.0.113.7"⟩, ⟨4, ⟨2, 0, 0⟩, 81, "198.51.100.2"⟩] 0 1 0
      (by decide)⟩

/-- C7, confirmed.  A successful accept from a peer whose host-order port
is `p` and whose address octets are `a.b.c.d` yields a connection whose
recorded port is `p` (`ntohs` of the network-order port) and whose
recorded IP is the dotted-decimal text of the peer's binary address. -/
theorem accept_reports_peer (server : ServerSocket) (heap : HeapTally) (acceptFd : Int)
    (a b c d p : Nat) (ha : a < 256) (hb : b < 256) (hc : c < 256) (hd2 : d < 256)
    (hp : p < 65536) (hfd : 0 ≤ acceptFd) :
    ∃ conn,
      (server_accept server true acceptFd
        ⟨AF_INET, hton16 p, packIPv4 a b c d⟩ heap).1 = some conn ∧
      conn.port = (p : Int) ∧
      conn.ip = toString a ++ "." ++ toString b ++ "." ++ toString c ++ "." ++ toString d := by
  refine ⟨⟨acceptFd, ⟨AF_INET, hton16 p, packIPv4 a b c d⟩,
      (ntohs (hton16 p) : Int), inet_ntop4 (packIPv4 a b c d)⟩, ?_, ?_, ?_⟩
  · rw [server_accept_success server acceptFd _ heap hfd]
  · show ((ntohs (hton16 p) : Nat) : Int) = (p : Int)
    rw [ntohs, hton16_hton16 p hp]
  · show inet_ntop4 (packIPv4 a b c d) = _
    unfold inet_ntop4
    rw [show packIPv4 a b c d / 16777216 % 256 = a from by unfold packIPv4; omega,
      show packIPv4 a b c d / 65536 % 256 = b from by unfold packIPv4; omega,
      show packIPv4 a b c d / 256 % 256 = c from by unfold packIPv4; omega,
      show packIPv4 a b c d % 256 = d from by unfold packIPv4; omega]

/-- C7 witness: peer 203.0.113.7 at port 54321. -/
theorem accept_reports_peer_witness :
    (203 < 256) ∧ (0 < 256) ∧ (113 < 256) ∧ (7 < 256) ∧ (54321 < 65536) ∧
    ((0 : Int) ≤ 4) ∧
    ∃ conn,
      (server_accept ⟨⟨3, ⟨2, 36895, 0⟩, 8080, "0.0.0.0"⟩, 5⟩ true 4
        ⟨AF_INET, hton16 54321, packIPv4 203 0 113 7⟩ ⟨0, 0⟩).1 = some conn ∧
      conn.port = ((54321 : Nat) : Int) ∧
      conn.ip = toString (203 : Nat) ++ "." ++ toString (0 : Nat) ++ "." ++
        toString (113 : Nat) ++ "." ++ toString (7 : Nat) :=
  ⟨by decide, by decide, by decide, by decide, by decide, by decide,
    accept_reports_peer ⟨⟨3, ⟨2, 36895, 0⟩, 8080, "0.0.0.0"⟩, 5⟩ ⟨0, 0⟩ 4 203 0 113 7 54321
      (by decide) (by decide) (by decide) (by decide) (by decide) (by decide)⟩

/-- C8, confirmed.  A receive on a connection whose peer closed its write
side with nothing pending returns the count 0 through the success path
(the buffer even gets its null terminator), while an OS-level receive
failure returns -1: the two outcomes are distinguishable values. -/
theorem receive_zero_is_graceful (buffer other : List Nat) (buffer_size bsz2 : Int)
    (pending : List Nat) :
    (socket_receive buffer buffer_size [] false).1 = 0 ∧
    (socket_receive other bsz2 pending true).1 = -1 ∧
    (0 : Int) ≠ -1 := by
  refine ⟨?_, rfl, by decide⟩
  simp [socket_receive]

/-- C9, confirmed.  `server_bind` and `server_listen` never write to the
`ServerSocket`: whatever the OS outcome, the structure after the call —
handle, ip, port, backlog — is exactly the structure before it. -/
theorem bind_listen_preserve_listener (server : ServerSocket)
    (bindResult listenResult : Int) :
    (server_bind server bindResult).2 = server ∧
    (server_listen server listenResult).2 = server := by
  unfold server_bind server_listen
  constructor
  · split <;> rfl
  · split <;> rfl

/-- C10, confirmed.  A non-failing `socket_receive` with `buffer_size ≥ 1`
on a buffer of at least `buffer_size` bytes returns a count below
`buffer_size`, writes the null terminator exactly at that index (inside
the first `buffer_size` bytes, without growing the buffer), and leaves the
buffer holding a C string of length at most `buffer_size - 1`. -/
theorem receive_null_terminates (buffer pending : List Nat) (buffer_size : Int)
    (h1 : 1 ≤ buffer_size) (h2 : buffer_size ≤ (buffer.length : Int)) :
    (socket_receive buffer buffer_size pending false).1 < buffer_size ∧
    (socket_receive buffer buffer_size pending false).2.get?
      (socket_receive buffer buffer_size pending false).1.toNat = some 0 ∧
    (socket_receive buffer buffer_size pending false).2.length = buffer.length ∧
    ((cStrLen (socket_receive buffer buffer_size pending false).2 : Nat) : Int)
      ≤ buffer_size - 1 := by
  have hfst : (socket_receive buffer buffer_size pending false).1
      = ((pending.take (buffer_size - 1).toNat).length : Int) := by
    simp [socket_receive]
  have hsnd : (socket_receive buffer buffer_size pending false).2
      = pending.take (buffer_size - 1).toNat ++ 0 ::
          buffer.drop ((pending.take (buffer_size - 1).toNat).length + 1) := by
    simp [socket_receive]
  have hn_le : (pending.take (buffer_size - 1).toNat).length ≤ (buffer_size - 1).toNat :=
    List.length_take_le _ _
  refine ⟨?_, ?_, ?_, ?_⟩
  · rw [hfst]; omega
  · rw [hsnd, hfst]
    have ht : (((pending.take (buffer_size - 1).toNat).length : Nat) : Int).toNat
        = (pending.take (buffer_size - 1).toNat).length := Int.toNat_natCast _
    rw [ht]
    exact get?_append_cons_self _ _ _
  · rw [hsnd]
    simp only [List.length_append, List.length_cons, List.length_drop]
    omega
  · rw [hsnd]
    have hc := cStrLen_append_zero (pending.take (buffer_size - 1).toNat)
      (buffer.drop ((pending.take (buffer_size - 1).toNat).length + 1))
    omega

/-- C10 witness: a four-byte buffer, capacity 4, two bytes delivered;
the terminator lands at index 2 and the stored string has length 2 ≤ 3. -/
theorem receive_null_terminates_witness :
    (1 : Int) ≤ 4 ∧ (4 : Int) ≤ ((([9, 9, 9, 9] : List Nat).length : Nat) : Int) ∧
    ((socket_receive [9, 9, 9, 9] 4 [7, 8] false).1 < 4 ∧
      (socket_receive [9, 9, 9, 9] 4 [7, 8] false).2.get?
        (socket_receive [9, 9, 9, 9] 4 [7, 8] false).1.toNat = some 0 ∧
      (socket_receive [9, 9, 9, 9] 4 [7, 8] false).2.length
        = ([9, 9, 9, 9] : List Nat).length ∧
      ((cStrLen (socket_receive [9, 9, 9, 9] 4 [7, 8] false).2 : Nat) : Int) ≤ 4 - 1) :=
  ⟨by decide, by decide, receive_null_terminates [9, 9, 9, 9] [7, 8] 4 (by decide) (by decide)⟩

end CSocket
